import Mathlib

/-!
Verification of the media-controller API wrapper (`src/lib.rs`).

The library talks to a kernel media device through two ioctls:
`get_device_info` (one identity request) and `get_topology` (a two-phase
sizing/data query with an optimistic version check).  The kernel is an
external component, so it is embedded as an environment value recording
the outcome of each ioctl round-trip; the Rust functions become pure
functions of that environment.  A Rust panic (an `unwrap` that fires) and
the undefined behaviour of `Vec::set_len` beyond capacity are both
modelled as the outer `Option` being `none`; an ordinary returned error
is `some (Except.error e)`.
-/

/-- Modelled from the spec: `media_ffi::media_device_info`, the fixed-size
kernel identity response (module `media_ffi` is not under `src/`; the spec
describes it as four NUL-terminated text fields plus three 32-bit version
numbers).  Byte-array fields are byte lists; integers are `Nat`. -/
structure media_device_info where
  driver : List Nat
  model : List Nat
  serial : List Nat
  bus_info : List Nat
  media_version : Nat
  hw_revision : Nat
  driver_version : Nat

/-- Modelled from the spec: `media_ffi::media_v2_entity` raw record
(entity: id, name, function, flags). -/
structure media_v2_entity where
  id : Nat
  name : List Nat
  function : Nat
  flags : Nat

/-- Modelled from the spec: `media_ffi::media_v2_interface` raw record
(interface: id, type, flags; the embedded devnode variant is unused by
`lib.rs` and left out). -/
structure media_v2_interface where
  id : Nat
  intf_type : Nat
  flags : Nat

/-- Modelled from the spec: `media_ffi::media_v2_pad` raw record
(pad: id, entity id, flags, index). -/
structure media_v2_pad where
  id : Nat
  entity_id : Nat
  flags : Nat
  index : Nat

/-- Modelled from the spec: `media_ffi::media_v2_link` raw record
(link: id, source id, sink id, flags). -/
structure media_v2_link where
  id : Nat
  source_id : Nat
  sink_id : Nat
  flags : Nat

/-- The byte prefix strictly before the first NUL terminator, or `none`
when no NUL is present (`CStr::from_bytes_until_nul` failing, which the
Rust code turns into a panic by `unwrap`). -/
def bytesUntilNul : List Nat → Option (List Nat)
  | [] => none
  | 0 :: _ => some []
  | b :: rest => (bytesUntilNul rest).map (fun bs => b :: bs)

/-- One continuation byte of a multi-byte UTF-8 sequence. -/
def isCont (b : Nat) : Bool := 0x80 ≤ b && b ≤ 0xBF

/-- Second-byte constraint of a three-byte UTF-8 sequence (excludes
overlong encodings and surrogates, as Rust `str::from_utf8` does). -/
def cont3 (b1 b2 : Nat) : Bool :=
  if b1 = 0xE0 then 0xA0 ≤ b2 && b2 ≤ 0xBF
  else if b1 = 0xED then 0x80 ≤ b2 && b2 ≤ 0x9F
  else isCont b2

/-- Second-byte constraint of a four-byte UTF-8 sequence (excludes
overlong encodings and code points above U+10FFFF). -/
def cont4 (b1 b2 : Nat) : Bool :=
  if b1 = 0xF0 then 0x90 ≤ b2 && b2 ≤ 0xBF
  else if b1 = 0xF4 then 0x80 ≤ b2 && b2 ≤ 0x8F
  else isCont b2

/-- UTF-8 validation and decoding of a byte list, with exactly the
acceptance conditions of Rust `str::from_utf8` (used by `CStr::to_str`):
`none` on any ill-formed sequence. -/
def utf8Decode : List Nat → Option (List Char)
  | [] => some []
  | b1 :: rest =>
    if b1 < 0x80 then
      (utf8Decode rest).map (fun cs => Char.ofNat b1 :: cs)
    else if b1 < 0xC2 then none
    else if b1 ≤ 0xDF then
      match rest with
      | b2 :: rest2 =>
        if isCont b2 then
          (utf8Decode rest2).map
            (fun cs => Char.ofNat ((b1 - 0xC0) * 0x40 + (b2 - 0x80)) :: cs)
        else none
      | [] => none
    else if b1 ≤ 0xEF then
      match rest with
      | b2 :: b3 :: rest3 =>
        if cont3 b1 b2 && isCont b3 then
          (utf8Decode rest3).map
            (fun cs =>
              Char.ofNat ((b1 - 0xE0) * 0x1000 + (b2 - 0x80) * 0x40 + (b3 - 0x80)) :: cs)
        else none
      | _ => none
    else if b1 ≤ 0xF4 then
      match rest with
      | b2 :: b3 :: b4 :: rest4 =>
        if cont4 b1 b2 && isCont b3 && isCont b4 then
          (utf8Decode rest4).map
            (fun cs =>
              Char.ofNat ((b1 - 0xF0) * 0x40000 + (b2 - 0x80) * 0x1000 +
                (b3 - 0x80) * 0x40 + (b4 - 0x80)) :: cs)
        else none
      | _ => none
    else none

/-- `c_str_to_str` (`lib.rs:223`): take the bytes up to the first NUL,
decode them as UTF-8 text.  The two `unwrap`s of the Rust code (no NUL
terminator, invalid UTF-8) are the two `none` cases. -/
def c_str_to_str (c_str : List Nat) : Option String :=
  (bytesUntilNul c_str).bind (fun bs => (utf8Decode bs).map (fun cs => String.mk cs))

/-- Safe device-identity value (`MediaDeviceInfo`, `lib.rs:24`). -/
structure MediaDeviceInfo where
  driver : String
  model : String
  serial : String
  bus_info : String
  media_version : Nat
  hw_version : Nat
  driver_version : Nat
deriving DecidableEq

/-- `MediaDeviceInfo::from_ffi` (`lib.rs:35`): decode the four text
fields, copy the three version integers (`hw_version` is fed from the raw
`hw_revision` field).  `none` models a panic inside `c_str_to_str`. -/
def MediaDeviceInfo.from_ffi (info : media_device_info) : Option MediaDeviceInfo :=
  (c_str_to_str info.driver).bind fun driver =>
  (c_str_to_str info.model).bind fun model =>
  (c_str_to_str info.serial).bind fun serial =>
  (c_str_to_str info.bus_info).map fun bus_info =>
    { driver := driver, model := model, serial := serial, bus_info := bus_info
      media_version := info.media_version
      hw_version := info.hw_revision
      driver_version := info.driver_version }

/-- Safe entity value (`MediaV2Entity`, `lib.rs:49`). -/
structure MediaV2Entity where
  id : Nat
  name : String
  function : Nat
  flags : Nat
deriving DecidableEq

/-- `MediaV2Entity::from_ffi` (`lib.rs:57`): decode the name, copy id,
flags, function.  `none` models the `c_str_to_str` panic. -/
def MediaV2Entity.from_ffi (entity : media_v2_entity) : Option MediaV2Entity :=
  (c_str_to_str entity.name).map fun n =>
    { id := entity.id, name := n, function := entity.function, flags := entity.flags }

/-- Safe interface value (`MediaV2Interface`, `lib.rs:74`). -/
structure MediaV2Interface where
  id : Nat
  intf_type : Nat
  flags : Nat
deriving DecidableEq

/-- `MediaV2Interface::from_ffi` (`lib.rs:82`): copy id, flags, type. -/
def MediaV2Interface.from_ffi (intf : media_v2_interface) : MediaV2Interface :=
  { id := intf.id, intf_type := intf.intf_type, flags := intf.flags }

/-- Safe pad value (`MediaV2Pad`, `lib.rs:92`). -/
structure MediaV2Pad where
  id : Nat
  entity_id : Nat
  flags : Nat
  index : Nat
deriving DecidableEq

/-- `MediaV2Pad::from_ffi` (`lib.rs:100`): copy all four fields. -/
def MediaV2Pad.from_ffi (pad : media_v2_pad) : MediaV2Pad :=
  { id := pad.id, entity_id := pad.entity_id, flags := pad.flags, index := pad.index }

/-- Safe link value (`MediaV2Link`, `lib.rs:111`). -/
structure MediaV2Link where
  id : Nat
  source_id : Nat
  sink_id : Nat
  flags : Nat
deriving DecidableEq

/-- `MediaV2Link::from_ffi` (`lib.rs:119`): copy all four fields. -/
def MediaV2Link.from_ffi (pad : media_v2_link) : MediaV2Link :=
  { id := pad.id, source_id := pad.source_id, sink_id := pad.sink_id, flags := pad.flags }

/-- The entity decode loop of `get_topology` (`lib.rs:198`):
`entities.iter().map(MediaV2Entity::from_ffi).collect()`, where a panic
inside `from_ffi` (`none`) aborts the whole call. -/
def decodeEntities : List media_v2_entity → Option (List MediaV2Entity)
  | [] => some []
  | e :: rest =>
    (MediaV2Entity.from_ffi e).bind fun v =>
      (decodeEntities rest).map fun vs => v :: vs

/-- The topology snapshot (`MediaV2Topology`, `lib.rs:130`). -/
structure MediaV2Topology where
  topology_version : Nat
  entities : List MediaV2Entity
  interfaces : List MediaV2Interface
  pads : List MediaV2Pad
  links : List MediaV2Link
deriving DecidableEq

/-- `GetTopologyError` (`lib.rs:151`): the two failure exits.  The OS
error code (`Errno`) is a `Nat`. -/
inductive GetTopologyError where
  | IoctlError (errno : Nat)
  | VersionChange (old_version new_version : Nat)
deriving DecidableEq

/-- Environment of one `get_device_info` call: whether `File::open`
succeeds, and the kernel's response to the single identity ioctl. -/
structure DeviceInfoEnv where
  openOk : Bool
  ioctl : Except Nat media_device_info

/-- `get_device_info` (`lib.rs:138`): open (panicking on failure), one
ioctl, decode on success, return the errno verbatim on failure. -/
def get_device_info (env : DeviceInfoEnv) : Option (Except Nat MediaDeviceInfo) :=
  if env.openOk then
    match env.ioctl with
    | .ok info => (MediaDeviceInfo.from_ffi info).map Except.ok
    | .error err => some (.error err)
  else none

/-- Kernel response to the sizing-phase topology ioctl: version stamp and
the four element counts written into the request struct. -/
structure TopoSizing where
  topology_version : Nat
  num_entities : Nat
  num_interfaces : Nat
  num_pads : Nat
  num_links : Nat

/-- Kernel response to the data-phase topology ioctl: the version stamp
and counts as the struct stands after the call, and the raw records the
kernel placed in each caller-allocated buffer (index `i` is slot `i`). -/
structure TopoData where
  topology_version : Nat
  num_entities : Nat
  num_interfaces : Nat
  num_pads : Nat
  num_links : Nat
  entities : Nat → media_v2_entity
  interfaces : Nat → media_v2_interface
  pads : Nat → media_v2_pad
  links : Nat → media_v2_link

/-- Environment of one `get_topology` call: whether `File::open`
succeeds, and the kernel's responses to the two topology ioctls. -/
structure TopoEnv where
  openOk : Bool
  sizing : Except Nat TopoSizing
  data : Except Nat TopoData

/-- `Vec::set_len` on a buffer of the given capacity: marking `len`
elements initialized reads slots `0..len` of the kernel-written contents;
beyond the allocated capacity this is undefined behaviour, modelled as
`none`. -/
def set_len {α : Type} (capacity : Nat) (buf : Nat → α) (len : Nat) : Option (List α) :=
  if len ≤ capacity then some ((List.range len).map buf) else none

/-- `get_topology` (`lib.rs:156`): open (panicking on failure), sizing
ioctl, allocation with the sizing counts as capacities, data ioctl,
version check, `set_len` with the counts as they stand after the data
phase, element-wise decode.  `none` models a panic or `set_len` UB. -/
def get_topology (env : TopoEnv) : Option (Except GetTopologyError MediaV2Topology) :=
  if env.openOk then
    match env.sizing with
    | .error err => some (.error (.IoctlError err))
    | .ok s =>
      match env.data with
      | .error errno => some (.error (.IoctlError errno))
      | .ok d =>
        if d.topology_version ≠ s.topology_version then
          some (.error (.VersionChange s.topology_version d.topology_version))
        else
          (set_len s.num_entities d.entities d.num_entities).bind fun rawEntities =>
          (set_len s.num_interfaces d.interfaces d.num_interfaces).bind fun rawInterfaces =>
          (set_len s.num_pads d.pads d.num_pads).bind fun rawPads =>
          (set_len s.num_links d.links d.num_links).bind fun rawLinks =>
          (decodeEntities rawEntities).map fun entities =>
            Except.ok
              { topology_version := d.topology_version
                entities := entities
                interfaces := rawInterfaces.map MediaV2Interface.from_ffi
                pads := rawPads.map MediaV2Pad.from_ffi
                links := rawLinks.map MediaV2Link.from_ffi }
  else none

/-! ### Basic lemmas about the embedding -/

lemma set_len_eq_some {α : Type} (capacity : Nat) (buf : Nat → α) (len : Nat)
    (l : List α) :
    set_len capacity buf len = some l ↔
      len ≤ capacity ∧ l = (List.range len).map buf := by
  unfold set_len
  split
  · simp only [Option.some.injEq]
    constructor
    · intro h
      exact ⟨by assumption, h.symm⟩
    · intro h
      exact h.2.symm
  · simp only [reduceCtorEq, false_iff, not_and]
    intro h
    omega

lemma decodeEntities_length (l : List media_v2_entity) (l' : List MediaV2Entity)
    (h : decodeEntities l = some l') : l'.length = l.length := by
  induction l generalizing l' with
  | nil =>
    simp only [decodeEntities, Option.some.injEq] at h
    simp [← h]
  | cons e rest ih =>
    simp only [decodeEntities] at h
    obtain ⟨v, _, h2⟩ := Option.bind_eq_some.mp h
    obtain ⟨vs, hvs, h3⟩ := Option.map_eq_some'.mp h2
    subst h3
    simp [ih vs hvs]

lemma decodeEntities_get :
    ∀ (l : List media_v2_entity) (l' : List MediaV2Entity),
      decodeEntities l = some l' →
      ∀ (i : Nat) (hi : i < l.length) (hi' : i < l'.length),
        MediaV2Entity.from_ffi (l.get ⟨i, hi⟩) = some (l'.get ⟨i, hi'⟩)
  | [], _, _, i, hi, _ => absurd hi (by simp)
  | e :: rest, l', h, i, hi, hi' => by
    simp only [decodeEntities] at h
    obtain ⟨v, hv, h2⟩ := Option.bind_eq_some.mp h
    obtain ⟨vs, hvs, h3⟩ := Option.map_eq_some'.mp h2
    subst h3
    cases i with
    | zero => simpa using hv
    | succ j =>
      simp only [List.get_cons_succ]
      exact decodeEntities_get rest vs hvs j (by simpa using hi) (by simpa using hi')

lemma decodeEntities_mem :
    ∀ (l : List media_v2_entity) (l' : List MediaV2Entity),
      decodeEntities l = some l' →
      ∀ e ∈ l, ∃ e' ∈ l', MediaV2Entity.from_ffi e = some e'
  | [], _, _, e, he => absurd he (by simp)
  | a :: rest, l', h, e, he => by
    simp only [decodeEntities] at h
    obtain ⟨v, hv, h2⟩ := Option.bind_eq_some.mp h
    obtain ⟨vs, hvs, h3⟩ := Option.map_eq_some'.mp h2
    subst h3
    rcases List.mem_cons.mp he with rfl | hmem
    · exact ⟨v, List.mem_cons_self _ _, hv⟩
    · obtain ⟨e', he', hfe⟩ := decodeEntities_mem rest vs hvs e hmem
      exact ⟨e', List.mem_cons_of_mem _ he', hfe⟩

lemma entity_from_ffi_inv (e : media_v2_entity) (e' : MediaV2Entity)
    (h : MediaV2Entity.from_ffi e = some e') :
    e'.id = e.id ∧ c_str_to_str e.name = some e'.name ∧
      e'.function = e.function ∧ e'.flags = e.flags := by
  unfold MediaV2Entity.from_ffi at h
  obtain ⟨n, hn, h2⟩ := Option.map_eq_some'.mp h
  subst h2
  exact ⟨rfl, hn, rfl, rfl⟩

lemma get_topology_openFalse (env : TopoEnv) (h : env.openOk = false) :
    get_topology env = none := by
  simp [get_topology, h]

lemma get_topology_sizing_err (env : TopoEnv) (e : Nat)
    (ho : env.openOk = true) (hs : env.sizing = Except.error e) :
    get_topology env = some (Except.error (GetTopologyError.IoctlError e)) := by
  simp [get_topology, ho, hs]

lemma get_topology_data_err (env : TopoEnv) (s : TopoSizing) (e : Nat)
    (ho : env.openOk = true) (hs : env.sizing = Except.ok s)
    (hd : env.data = Except.error e) :
    get_topology env = some (Except.error (GetTopologyError.IoctlError e)) := by
  simp [get_topology, ho, hs, hd]

lemma get_topology_vc (env : TopoEnv) (s : TopoSizing) (d : TopoData)
    (ho : env.openOk = true) (hs : env.sizing = Except.ok s)
    (hd : env.data = Except.ok d)
    (hne : d.topology_version ≠ s.topology_version) :
    get_topology env =
      some (Except.error
        (GetTopologyError.VersionChange s.topology_version d.topology_version)) := by
  simp [get_topology, ho, hs, hd, hne]

lemma get_topology_decode (env : TopoEnv) (s : TopoSizing) (d : TopoData)
    (ho : env.openOk = true) (hs : env.sizing = Except.ok s)
    (hd : env.data = Except.ok d)
    (heq : d.topology_version = s.topology_version) :
    get_topology env =
      ((set_len s.num_entities d.entities d.num_entities).bind fun rawEntities =>
        (set_len s.num_interfaces d.interfaces d.num_interfaces).bind fun rawInterfaces =>
        (set_len s.num_pads d.pads d.num_pads).bind fun rawPads =>
        (set_len s.num_links d.links d.num_links).bind fun rawLinks =>
        (decodeEntities rawEntities).map fun entities =>
          Except.ok
            { topology_version := d.topology_version
              entities := entities
              interfaces := rawInterfaces.map MediaV2Interface.from_ffi
              pads := rawPads.map MediaV2Pad.from_ffi
              links := rawLinks.map MediaV2Link.from_ffi }) := by
  simp [get_topology, ho, hs, hd, heq]

lemma get_topology_ok_inv (env : TopoEnv) (s : TopoSizing) (d : TopoData)
    (t : MediaV2Topology) (ho : env.openOk = true)
    (hs : env.sizing = Except.ok s) (hd : env.data = Except.ok d)
    (ht : get_topology env = some (Except.ok t)) :
    d.topology_version = s.topology_version ∧
      d.num_entities ≤ s.num_entities ∧
      d.num_interfaces ≤ s.num_interfaces ∧
      d.num_pads ≤ s.num_pads ∧
      d.num_links ≤ s.num_links ∧
      decodeEntities ((List.range d.num_entities).map d.entities) = some t.entities ∧
      t.interfaces = ((List.range d.num_interfaces).map d.interfaces).map MediaV2Interface.from_ffi ∧
      t.pads = ((List.range d.num_pads).map d.pads).map MediaV2Pad.from_ffi ∧
      t.links = ((List.range d.num_links).map d.links).map MediaV2Link.from_ffi ∧
      t.topology_version = d.topology_version := by
  by_cases heq : d.topology_version = s.topology_version
  · rw [get_topology_decode env s d ho hs hd heq] at ht
    obtain ⟨rawE, hE, ht⟩ := Option.bind_eq_some.mp ht
    obtain ⟨rawI, hI, ht⟩ := Option.bind_eq_some.mp ht
    obtain ⟨rawP, hP, ht⟩ := Option.bind_eq_some.mp ht
    obtain ⟨rawL, hL, ht⟩ := Option.bind_eq_some.mp ht
    obtain ⟨ents, hEnts, ht⟩ := Option.map_eq_some'.mp ht
    obtain ⟨hcapE, hrawE⟩ := (set_len_eq_some _ _ _ _).mp hE
    obtain ⟨hcapI, hrawI⟩ := (set_len_eq_some _ _ _ _).mp hI
    obtain ⟨hcapP, hrawP⟩ := (set_len_eq_some _ _ _ _).mp hP
    obtain ⟨hcapL, hrawL⟩ := (set_len_eq_some _ _ _ _).mp hL
    obtain rfl : _ = t := Except.ok.inj ht
    subst hrawE hrawI hrawP hrawL
    exact ⟨heq, hcapE, hcapI, hcapP, hcapL, hEnts, rfl, rfl, rfl, rfl⟩
  · rw [get_topology_vc env s d ho hs hd heq] at ht
    simp at ht

/-! ### Concrete fixtures (kernel responses used by witnesses) -/

/-- A raw entity whose name field is `"e"` followed by a NUL. -/
def entE : media_v2_entity := ⟨1, [101, 0], 4, 0⟩

/-- A raw interface record. -/
def intfE : media_v2_interface := ⟨100, 3, 0⟩

/-- A raw pad record attached to entity 1. -/
def padE : media_v2_pad := ⟨200, 1, 0, 0⟩

/-- A raw link record from pad 200 to pad 201. -/
def linkE : media_v2_link := ⟨300, 200, 201, 0⟩

/-- A sizing response: version 10, no elements. -/
def sizing0 : TopoSizing := ⟨10, 0, 0, 0, 0⟩

/-- A data response: version 11, no elements. -/
def dataV11 : TopoData :=
  ⟨11, 0, 0, 0, 0, fun _ => entE, fun _ => intfE, fun _ => padE, fun _ => linkE⟩

instance {ε α : Type} [DecidableEq ε] [DecidableEq α] :
    DecidableEq (Except ε α) := fun x y =>
  match x, y with
  | .error e1, .error e2 =>
    if h : e1 = e2 then isTrue (by rw [h])
    else isFalse (by intro hc; cases hc; exact h rfl)
  | .error _, .ok _ => isFalse (by intro hc; cases hc)
  | .ok _, .error _ => isFalse (by intro hc; cases hc)
  | .ok a1, .ok a2 =>
    if h : a1 = a2 then isTrue (by rw [h])
    else isFalse (by intro hc; cases hc; exact h rfl)

/-- A 16-byte driver field holding `"uvcvideo"` followed by NUL padding. -/
def uvcvideoField : List Nat :=
  [117, 118, 99, 118, 105, 100, 101, 111] ++ List.replicate 8 0

/-- An all-zero 16-byte identity field. -/
def zeroField : List Nat := List.replicate 16 0

/-- A kernel identity response with driver `"uvcvideo"`, model `"m"`,
empty serial, bus info `"b"` and version numbers 256, 7, 3. -/
def infoA : media_device_info :=
  ⟨uvcvideoField, [109, 0], [0], [98, 0], 256, 7, 3⟩

/-- The decoded form of `infoA`. -/
def infoA_decoded : MediaDeviceInfo := ⟨"uvcvideo", "m", "", "b", 256, 7, 3⟩

/-! ### Claim theorems -/

/-- C1: whenever the data-phase topology version differs from the
sizing-phase version, `get_topology` returns exactly
`VersionChange{old := sizing version, new := data version}` with
old ≠ new — no snapshot and no decoded collection data. -/
theorem get_topology_version_change (env : TopoEnv) (s : TopoSizing)
    (d : TopoData) (ho : env.openOk = true) (hs : env.sizing = Except.ok s)
    (hd : env.data = Except.ok d)
    (hne : d.topology_version ≠ s.topology_version) :
    get_topology env =
      some (Except.error
        (GetTopologyError.VersionChange s.topology_version d.topology_version)) ∧
      s.topology_version ≠ d.topology_version :=
  ⟨get_topology_vc env s d ho hs hd hne, fun h => hne h.symm⟩

/-- Witness for C1: sizing version 10, data version 11. -/
theorem get_topology_version_change_witness :
    get_topology ⟨true, Except.ok sizing0, Except.ok dataV11⟩ =
      some (Except.error (GetTopologyError.VersionChange 10 11)) ∧
      (10 : Nat) ≠ 11 :=
  get_topology_version_change ⟨true, Except.ok sizing0, Except.ok dataV11⟩
    sizing0 dataV11 rfl rfl rfl (by decide)

/-- C2: if either the sizing-phase or the data-phase ioctl fails with an
OS error code, `get_topology` returns `IoctlError` wrapping exactly that
code, and nothing else. -/
theorem get_topology_ioctl_error (env : TopoEnv) (e : Nat)
    (ho : env.openOk = true) :
    (env.sizing = Except.error e →
        get_topology env = some (Except.error (GetTopologyError.IoctlError e))) ∧
    (∀ s : TopoSizing, env.sizing = Except.ok s → env.data = Except.error e →
        get_topology env = some (Except.error (GetTopologyError.IoctlError e))) :=
  ⟨fun hs => get_topology_sizing_err env e ho hs,
   fun s hs hd => get_topology_data_err env s e ho hs hd⟩

/-- Witness for C2: a sizing-phase failure with errno 5 and a data-phase
failure with errno 7. -/
theorem get_topology_ioctl_error_witness :
    get_topology ⟨true, Except.error 5, Except.error 5⟩ =
      some (Except.error (GetTopologyError.IoctlError 5)) ∧
    get_topology ⟨true, Except.ok sizing0, Except.error 7⟩ =
      some (Except.error (GetTopologyError.IoctlError 7)) :=
  ⟨(get_topology_ioctl_error ⟨true, Except.error 5, Except.error 5⟩ 5 rfl).1 rfl,
   (get_topology_ioctl_error ⟨true, Except.ok sizing0, Except.error 7⟩ 7 rfl).2
      sizing0 rfl rfl⟩

/-- The prefix before the first NUL of `pre ++ 0 :: post` is exactly
`pre` when `pre` itself contains no NUL. -/
lemma bytesUntilNul_append (pre post : List Nat) (h : 0 ∉ pre) :
    bytesUntilNul (pre ++ 0 :: post) = some pre := by
  induction pre with
  | nil => simp [bytesUntilNul]
  | cons b rest ih =>
    have hb : b ≠ 0 := fun hb => h (by simp [hb])
    have hrest : 0 ∉ rest := fun hr => h (List.mem_cons_of_mem _ hr)
    cases b with
    | zero => exact absurd rfl hb
    | succ n => simp [bytesUntilNul, ih hrest]

/-- C6: a fixed-capacity identity field decodes as the bytes up to the
first NUL interpreted as text: a driver field `"uvcvideo\x00..."` decodes
to `"uvcvideo"`, an all-zero field decodes to `""`, and in general the
bytes after the first NUL never influence the result. -/
theorem c_str_to_str_nul_decode :
    c_str_to_str uvcvideoField = some "uvcvideo" ∧
    c_str_to_str zeroField = some "" ∧
    ∀ pre post : List Nat, 0 ∉ pre →
      c_str_to_str (pre ++ 0 :: post) =
        (utf8Decode pre).map (fun cs => String.mk cs) := by
  refine ⟨by decide, by decide, ?_⟩
  intro pre post h
  unfold c_str_to_str
  rw [bytesUntilNul_append pre post h]
  rfl

/-- Witness for C6: the byte 104 (`"h"`) followed by a NUL and then a
junk byte decodes independently of the junk byte. -/
theorem c_str_to_str_nul_decode_witness :
    c_str_to_str ([104] ++ 0 :: [255]) =
      (utf8Decode [104]).map (fun cs => String.mk cs) :=
  c_str_to_str_nul_decode.2.2 [104] [255] (by decide)

/-- Inversion of `MediaDeviceInfo.from_ffi`: a successful decode yields
the four decoded text fields and the three version integers copied
unchanged (`hw_version` from the raw `hw_revision`). -/
lemma device_info_from_ffi_inv (info : media_device_info)
    (r : MediaDeviceInfo) (h : MediaDeviceInfo.from_ffi info = some r) :
    c_str_to_str info.driver = some r.driver ∧
      c_str_to_str info.model = some r.model ∧
      c_str_to_str info.serial = some r.serial ∧
      c_str_to_str info.bus_info = some r.bus_info ∧
      r.media_version = info.media_version ∧
      r.hw_version = info.hw_revision ∧
      r.driver_version = info.driver_version := by
  unfold MediaDeviceInfo.from_ffi at h
  obtain ⟨dr, hdr, h⟩ := Option.bind_eq_some.mp h
  obtain ⟨mo, hmo, h⟩ := Option.bind_eq_some.mp h
  obtain ⟨se, hse, h⟩ := Option.bind_eq_some.mp h
  obtain ⟨bu, hbu, h⟩ := Option.map_eq_some'.mp h
  subst h
  exact ⟨hdr, hmo, hse, hbu, rfl, rfl, rfl⟩

/-- C7: if the identity ioctl succeeds, `get_device_info` returns the
decoded text fields and the three version integers copied unchanged; if
it fails, the OS error code is returned verbatim. -/
theorem get_device_info_spec (env : DeviceInfoEnv) (ho : env.openOk = true) :
    (∀ e, env.ioctl = Except.error e →
        get_device_info env = some (Except.error e)) ∧
    (∀ (info : media_device_info) (r : MediaDeviceInfo),
        env.ioctl = Except.ok info →
        get_device_info env = some (Except.ok r) →
        c_str_to_str info.driver = some r.driver ∧
          c_str_to_str info.model = some r.model ∧
          c_str_to_str info.serial = some r.serial ∧
          c_str_to_str info.bus_info = some r.bus_info ∧
          r.media_version = info.media_version ∧
          r.hw_version = info.hw_revision ∧
          r.driver_version = info.driver_version) := by
  constructor
  · intro e he
    simp [get_device_info, ho, he]
  · intro info r hi hr
    simp only [get_device_info, ho, hi, if_true] at hr
    obtain ⟨a, ha, h2⟩ := Option.map_eq_some'.mp hr
    obtain rfl : a = r := Except.ok.inj h2
    exact device_info_from_ffi_inv info a ha

/-- Witness for C7: errno 16 is passed through verbatim, and the
concrete identity response `infoA` decodes field by field. -/
theorem get_device_info_spec_witness :
    get_device_info ⟨true, Except.error 16⟩ = some (Except.error 16) ∧
      (c_str_to_str infoA.driver = some infoA_decoded.driver ∧
        c_str_to_str infoA.model = some infoA_decoded.model ∧
        c_str_to_str infoA.serial = some infoA_decoded.serial ∧
        c_str_to_str infoA.bus_info = some infoA_decoded.bus_info ∧
        infoA_decoded.media_version = infoA.media_version ∧
        infoA_decoded.hw_version = infoA.hw_revision ∧
        infoA_decoded.driver_version = infoA.driver_version) :=
  ⟨(get_device_info_spec ⟨true, Except.error 16⟩ rfl).1 16 rfl,
   (get_device_info_spec ⟨true, Except.ok infoA⟩ rfl).2 infoA infoA_decoded
      rfl (by decide)⟩

/-- C10: when `File::open` fails, both `get_device_info` and
`get_topology` panic (the `unwrap` fires) instead of returning an error
value, and `GetTopologyError` has no variant that could represent an
open failure — every value is an `IoctlError` or a `VersionChange`. -/
theorem open_failure_panics (denv : DeviceInfoEnv) (tenv : TopoEnv)
    (h1 : denv.openOk = false) (h2 : tenv.openOk = false) :
    get_device_info denv = none ∧ get_topology tenv = none ∧
      (∀ err : GetTopologyError,
        (∃ e, err = GetTopologyError.IoctlError e) ∨
          ∃ o n, err = GetTopologyError.VersionChange o n) := by
  refine ⟨?_, get_topology_openFalse tenv h2, ?_⟩
  · simp [get_device_info, h1]
  · intro err
    cases err with
    | IoctlError e => exact Or.inl ⟨e, rfl⟩
    | VersionChange o n => exact Or.inr ⟨o, n, rfl⟩

/-- Witness for C10: concrete environments whose `File::open` fails. -/
theorem open_failure_panics_witness :
    get_device_info ⟨false, Except.error 2⟩ = none ∧
      get_topology ⟨false, Except.error 2, Except.error 2⟩ = none ∧
      (∀ err : GetTopologyError,
        (∃ e, err = GetTopologyError.IoctlError e) ∨
          ∃ o n, err = GetTopologyError.VersionChange o n) :=
  open_failure_panics ⟨false, Except.error 2⟩
    ⟨false, Except.error 2, Except.error 2⟩ rfl rfl

/-! ### Referential integrity of a snapshot -/

/-- Referential integrity of a decoded snapshot: every pad points at an
entity of the same snapshot and every link endpoint at a pad of the same
snapshot. -/
def refIntact (t : MediaV2Topology) : Prop :=
  (∀ p ∈ t.pads, ∃ e ∈ t.entities, e.id = p.entity_id) ∧
  (∀ l ∈ t.links,
    (∃ p ∈ t.pads, p.id = l.source_id) ∧ ∃ p ∈ t.pads, p.id = l.sink_id)

instance (t : MediaV2Topology) : Decidable (refIntact t) := by
  unfold refIntact
  infer_instance

/-- Referential integrity of the raw records the kernel wrote into the
caller's buffers. -/
def rawRefIntact (es : List media_v2_entity) (ps : List media_v2_pad)
    (ls : List media_v2_link) : Prop :=
  (∀ p ∈ ps, ∃ e ∈ es, e.id = p.entity_id) ∧
  (∀ l ∈ ls, (∃ p ∈ ps, p.id = l.source_id) ∧ ∃ p ∈ ps, p.id = l.sink_id)

instance (es : List media_v2_entity) (ps : List media_v2_pad)
    (ls : List media_v2_link) : Decidable (rawRefIntact es ps ls) := by
  unfold rawRefIntact
  infer_instance

/-! ### Further fixtures -/

/-- Sizing response reporting 2 entities. -/
def sizingC3 : TopoSizing := ⟨10, 2, 0, 0, 0⟩

/-- Data response with matching version 10 but only 1 entity. -/
def dataC3 : TopoData :=
  ⟨10, 1, 0, 0, 0, fun _ => entE, fun _ => intfE, fun _ => padE, fun _ => linkE⟩

/-- Environment where the data phase reports fewer entities (1) than the
sizing phase (2) under an unchanged version stamp. -/
def envC3 : TopoEnv := ⟨true, Except.ok sizingC3, Except.ok dataC3⟩

/-- The snapshot `get_topology` produces on `envC3`. -/
def snapC3 : MediaV2Topology := ⟨10, [⟨1, "e", 4, 0⟩], [], [], []⟩

/-- Sizing response reporting one pad and nothing else. -/
def sizingC4 : TopoSizing := ⟨10, 0, 0, 1, 0⟩

/-- Data response delivering a pad that references entity 42, while zero
entities are reported. -/
def dataC4 : TopoData :=
  ⟨10, 0, 0, 1, 0, fun _ => entE, fun _ => intfE, fun _ => ⟨200, 42, 0, 0⟩,
    fun _ => linkE⟩

/-- Environment whose kernel responses are consistent in version but
deliver a dangling pad reference. -/
def envC4 : TopoEnv := ⟨true, Except.ok sizingC4, Except.ok dataC4⟩

/-- The snapshot `get_topology` produces on `envC4`: a pad referencing a
nonexistent entity. -/
def snapC4 : MediaV2Topology := ⟨10, [], [], [⟨200, 42, 0, 0⟩], []⟩

/-- The spec scenario sizing response: 3 entities, 2 pads, 1 link,
version 10. -/
def sizingScn : TopoSizing := ⟨10, 3, 0, 2, 1⟩

/-- The spec scenario data response: matching version 10 and counts,
with self-consistent records. -/
def dataScn : TopoData :=
  ⟨10, 3, 0, 2, 1, fun _ => entE, fun _ => intfE,
    fun i => if i = 0 then padE else ⟨201, 1, 0, 1⟩, fun _ => linkE⟩

/-- Environment for the spec scenario. -/
def envScn : TopoEnv := ⟨true, Except.ok sizingScn, Except.ok dataScn⟩

/-- The snapshot `get_topology` produces on `envScn`. -/
def snapScn : MediaV2Topology :=
  ⟨10, [⟨1, "e", 4, 0⟩, ⟨1, "e", 4, 0⟩, ⟨1, "e", 4, 0⟩], [],
    [⟨200, 1, 0, 0⟩, ⟨201, 1, 0, 1⟩], [⟨300, 200, 201, 0⟩]⟩

/-- Sizing response for the decode-panic case: 1 entity. -/
def sizingC8 : TopoSizing := ⟨10, 1, 0, 0, 0⟩

/-- Data response whose entity name field carries no NUL terminator. -/
def dataC8 : TopoData :=
  ⟨10, 1, 0, 0, 0, fun _ => ⟨1, [101, 101], 4, 0⟩, fun _ => intfE,
    fun _ => padE, fun _ => linkE⟩

/-- Environment on which both ioctls succeed with matching versions but
decoding panics (entity name without NUL terminator). -/
def envC8 : TopoEnv := ⟨true, Except.ok sizingC8, Except.ok dataC8⟩

/-- Environment whose sizing ioctl fails with errno 9. -/
def envErr9 : TopoEnv := ⟨true, Except.error 9, Except.error 9⟩

/-- Data response whose entity count (1) exceeds the sizing-phase count
(0) under an unchanged version stamp. -/
def dataUB : TopoData :=
  ⟨10, 1, 0, 0, 0, fun _ => entE, fun _ => intfE, fun _ => padE, fun _ => linkE⟩

/-- Environment on which the data-phase count exceeds the allocated
capacity, making the `set_len` marking undefined behaviour. -/
def envUB : TopoEnv := ⟨true, Except.ok sizing0, Except.ok dataUB⟩

/-- `List.get` of a mapped range picks out the function value. -/
lemma get_range_map {α : Type} (f : Nat → α) (n i : Nat)
    (h : i < ((List.range n).map f).length) :
    ((List.range n).map f).get ⟨i, h⟩ = f i := by
  simp [List.get_eq_getElem, List.getElem_map, List.getElem_range]

/-- C3 counterexample: on `envC3` the sizing phase reports 2 entities,
the data phase (same version stamp) reports 1, and the successful
snapshot holds 1 entity — not the sizing-phase count. -/
theorem get_topology_sizing_count_cex :
    envC3.sizing = Except.ok sizingC3 ∧ sizingC3.num_entities = 2 ∧
      get_topology envC3 = some (Except.ok snapC3) ∧
      snapC3.entities.length = 1 := by
  exact ⟨rfl, rfl, by decide, rfl⟩

/-- C3 (amended): decoded collection lengths equal the element counts as
they stand after the data phase; they equal the sizing-phase counts
whenever the kernel reports the same counts in both phases, and a count
of 0 yields an empty sequence, not an error. -/
theorem get_topology_lengths (env : TopoEnv) (s : TopoSizing) (d : TopoData)
    (t : MediaV2Topology) (ho : env.openOk = true)
    (hs : env.sizing = Except.ok s) (hd : env.data = Except.ok d)
    (ht : get_topology env = some (Except.ok t)) :
    (t.entities.length = d.num_entities ∧
      t.interfaces.length = d.num_interfaces ∧
      t.pads.length = d.num_pads ∧ t.links.length = d.num_links) ∧
    (d.num_entities = s.num_entities → t.entities.length = s.num_entities) ∧
    (d.num_interfaces = s.num_interfaces →
      t.interfaces.length = s.num_interfaces) ∧
    (d.num_pads = s.num_pads → t.pads.length = s.num_pads) ∧
    (d.num_links = s.num_links → t.links.length = s.num_links) ∧
    (d.num_entities = 0 → t.entities = []) := by
  obtain ⟨-, -, -, -, -, hents, hintfs, hpads, hlinks, -⟩ :=
    get_topology_ok_inv env s d t ho hs hd ht
  have he : t.entities.length = d.num_entities := by
    have := decodeEntities_length _ _ hents
    simpa using this
  have hi : t.interfaces.length = d.num_interfaces := by rw [hintfs]; simp
  have hp : t.pads.length = d.num_pads := by rw [hpads]; simp
  have hl : t.links.length = d.num_links := by rw [hlinks]; simp
  refine ⟨⟨he, hi, hp, hl⟩, fun h => by rw [he, h], fun h => by rw [hi, h],
    fun h => by rw [hp, h], fun h => by rw [hl, h], fun h => ?_⟩
  rw [← List.length_eq_zero]
  omega

/-- Witness for the amended C3: the spec scenario (3 entities, 2 pads,
1 link, matching version 10) yields matching lengths. -/
theorem get_topology_lengths_witness :
    (snapScn.entities.length = dataScn.num_entities ∧
      snapScn.interfaces.length = dataScn.num_interfaces ∧
      snapScn.pads.length = dataScn.num_pads ∧
      snapScn.links.length = dataScn.num_links) ∧
    snapScn.entities.length = sizingScn.num_entities := by
  have h := get_topology_lengths envScn sizingScn dataScn snapScn
    rfl rfl rfl (by decide)
  exact ⟨h.1, h.2.1 rfl⟩

/-- C4 counterexample: on `envC4` both phases succeed under one version
stamp, yet the snapshot contains a pad whose `entity_id` (42) matches no
entity — the code performs no referential-integrity validation. -/
theorem get_topology_ref_integrity_cex :
    get_topology envC4 = some (Except.ok snapC4) ∧ ¬ refIntact snapC4 := by
  exact ⟨by decide, by decide⟩

/-- C4 (amended): whenever the raw records the kernel delivered satisfy
referential integrity, the decoded snapshot satisfies it too, because
decoding copies every id unchanged. -/
theorem get_topology_ref_integrity_of_raw (env : TopoEnv) (s : TopoSizing)
    (d : TopoData) (t : MediaV2Topology) (ho : env.openOk = true)
    (hs : env.sizing = Except.ok s) (hd : env.data = Except.ok d)
    (ht : get_topology env = some (Except.ok t))
    (hraw : rawRefIntact ((List.range d.num_entities).map d.entities)
      ((List.range d.num_pads).map d.pads)
      ((List.range d.num_links).map d.links)) :
    refIntact t := by
  obtain ⟨-, -, -, -, -, hents, -, hpads, hlinks, -⟩ :=
    get_topology_ok_inv env s d t ho hs hd ht
  obtain ⟨hrawP, hrawL⟩ := hraw
  constructor
  · intro p hp
    rw [hpads] at hp
    obtain ⟨rp, hrp, rfl⟩ := List.mem_map.mp hp
    obtain ⟨re, hre, hid⟩ := hrawP rp hrp
    obtain ⟨e', he', hfe⟩ := decodeEntities_mem _ _ hents re hre
    refine ⟨e', he', ?_⟩
    have hid' := (entity_from_ffi_inv re e' hfe).1
    simpa [MediaV2Pad.from_ffi, hid'] using hid
  · intro l hl
    rw [hlinks] at hl
    obtain ⟨rl, hrl, rfl⟩ := List.mem_map.mp hl
    obtain ⟨⟨rps, hrps, hsrc⟩, rpk, hrpk, hsnk⟩ := hrawL rl hrl
    constructor
    · refine ⟨MediaV2Pad.from_ffi rps, ?_, ?_⟩
      · rw [hpads]
        exact List.mem_map.mpr ⟨rps, hrps, rfl⟩
      · simpa [MediaV2Pad.from_ffi, MediaV2Link.from_ffi] using hsrc
    · refine ⟨MediaV2Pad.from_ffi rpk, ?_, ?_⟩
      · rw [hpads]
        exact List.mem_map.mpr ⟨rpk, hrpk, rfl⟩
      · simpa [MediaV2Pad.from_ffi, MediaV2Link.from_ffi] using hsnk

/-- Witness for the amended C4: the spec scenario's raw records are
referentially intact, hence so is its snapshot. -/
theorem get_topology_ref_integrity_of_raw_witness : refIntact snapScn :=
  get_topology_ref_integrity_of_raw envScn sizingScn dataScn snapScn
    rfl rfl rfl (by decide) (by decide)

/-- C5: a successful call decodes only under matching version stamps and
converts the raw records element by element in order, copying every
field unchanged (the entity name through the NUL-terminated text
decoding). -/
theorem get_topology_decode_elementwise (env : TopoEnv) (s : TopoSizing)
    (d : TopoData) (t : MediaV2Topology) (ho : env.openOk = true)
    (hs : env.sizing = Except.ok s) (hd : env.data = Except.ok d)
    (ht : get_topology env = some (Except.ok t)) :
    d.topology_version = s.topology_version ∧
    t.entities.length = d.num_entities ∧
    (∀ i (h2 : i < t.entities.length),
      (t.entities.get ⟨i, h2⟩).id = (d.entities i).id ∧
      c_str_to_str (d.entities i).name = some (t.entities.get ⟨i, h2⟩).name ∧
      (t.entities.get ⟨i, h2⟩).function = (d.entities i).function ∧
      (t.entities.get ⟨i, h2⟩).flags = (d.entities i).flags) ∧
    t.interfaces.length = d.num_interfaces ∧
    (∀ i (h2 : i < t.interfaces.length),
      t.interfaces.get ⟨i, h2⟩ =
        { id := (d.interfaces i).id, intf_type := (d.interfaces i).intf_type,
          flags := (d.interfaces i).flags }) ∧
    t.pads.length = d.num_pads ∧
    (∀ i (h2 : i < t.pads.length),
      t.pads.get ⟨i, h2⟩ =
        { id := (d.pads i).id, entity_id := (d.pads i).entity_id,
          flags := (d.pads i).flags, index := (d.pads i).index }) ∧
    t.links.length = d.num_links ∧
    (∀ i (h2 : i < t.links.length),
      t.links.get ⟨i, h2⟩ =
        { id := (d.links i).id, source_id := (d.links i).source_id,
          sink_id := (d.links i).sink_id, flags := (d.links i).flags }) := by
  obtain ⟨hv, -, -, -, -, hents, hintfs, hpads, hlinks, -⟩ :=
    get_topology_ok_inv env s d t ho hs hd ht
  have hlenE : t.entities.length = d.num_entities := by
    have := decodeEntities_length _ _ hents
    simpa using this
  have hlenI : t.interfaces.length = d.num_interfaces := by rw [hintfs]; simp
  have hlenP : t.pads.length = d.num_pads := by rw [hpads]; simp
  have hlenL : t.links.length = d.num_links := by rw [hlinks]; simp
  refine ⟨hv, hlenE, ?_, hlenI, ?_, hlenP, ?_, hlenL, ?_⟩
  · intro i h2
    have hiRaw : i < ((List.range d.num_entities).map d.entities).length := by
      simp
      omega
    have hget := decodeEntities_get _ _ hents i hiRaw h2
    rw [get_range_map] at hget
    obtain ⟨h1, hname, h3, h4⟩ := entity_from_ffi_inv _ _ hget
    exact ⟨h1, hname, h3, h4⟩
  · intro i h2
    simp only [hintfs, List.get_eq_getElem, List.getElem_map,
      List.getElem_range, MediaV2Interface.from_ffi]
  · intro i h2
    simp only [hpads, List.get_eq_getElem, List.getElem_map,
      List.getElem_range, MediaV2Pad.from_ffi]
  · intro i h2
    simp only [hlinks, List.get_eq_getElem, List.getElem_map,
      List.getElem_range, MediaV2Link.from_ffi]

/-- Witness for C5: the spec scenario decodes with matching versions and
matching element counts. -/
theorem get_topology_decode_elementwise_witness :
    dataScn.topology_version = sizingScn.topology_version ∧
      snapScn.entities.length = dataScn.num_entities := by
  have h := get_topology_decode_elementwise envScn sizingScn dataScn snapScn
    rfl rfl rfl (by decide)
  exact ⟨h.1, h.2.1⟩

/-- C8 counterexample: on `envC8` the open succeeds, both ioctls succeed
with matching version stamps, yet `get_topology` reaches none of the
three exits — it panics decoding an entity name that carries no NUL
terminator. -/
theorem get_topology_outcome_cex :
    envC8.openOk = true ∧ envC8.sizing = Except.ok sizingC8 ∧
      envC8.data = Except.ok dataC8 ∧
      dataC8.topology_version = sizingC8.topology_version ∧
      get_topology envC8 = none := by
  exact ⟨rfl, rfl, rfl, rfl, by decide⟩

/-- C8 (amended): on every input on which `get_topology` returns at all
(no panic), the outcome is exactly one of the three exits, reached by the
linear control flow: a failing sizing or data ioctl gives `IoctlError`, a
version mismatch gives `VersionChange`, and otherwise a snapshot is
returned. -/
theorem get_topology_linear (env : TopoEnv)
    (r : Except GetTopologyError MediaV2Topology)
    (h : get_topology env = some r) :
    env.openOk = true ∧
    ((∃ e, r = Except.error (GetTopologyError.IoctlError e) ∧
        (env.sizing = Except.error e ∨
          ∃ s, env.sizing = Except.ok s ∧ env.data = Except.error e)) ∨
      (∃ s d, env.sizing = Except.ok s ∧ env.data = Except.ok d ∧
        d.topology_version ≠ s.topology_version ∧
        r = Except.error (GetTopologyError.VersionChange
          s.topology_version d.topology_version)) ∨
      (∃ s d t, env.sizing = Except.ok s ∧ env.data = Except.ok d ∧
        d.topology_version = s.topology_version ∧ r = Except.ok t)) := by
  by_cases ho : env.openOk = true
  · refine ⟨ho, ?_⟩
    cases hsz : env.sizing with
    | error e =>
      rw [get_topology_sizing_err env e ho hsz] at h
      exact Or.inl ⟨e, (Option.some.inj h).symm, Or.inl rfl⟩
    | ok s =>
      cases hdt : env.data with
      | error e =>
        rw [get_topology_data_err env s e ho hsz hdt] at h
        exact Or.inl ⟨e, (Option.some.inj h).symm, Or.inr ⟨s, rfl, rfl⟩⟩
      | ok d =>
        by_cases hv : d.topology_version = s.topology_version
        · rw [get_topology_decode env s d ho hsz hdt hv] at h
          obtain ⟨rawE, hE, h⟩ := Option.bind_eq_some.mp h
          obtain ⟨rawI, hI, h⟩ := Option.bind_eq_some.mp h
          obtain ⟨rawP, hP, h⟩ := Option.bind_eq_some.mp h
          obtain ⟨rawL, hL, h⟩ := Option.bind_eq_some.mp h
          obtain ⟨ents, hEnts, h⟩ := Option.map_eq_some'.mp h
          exact Or.inr (Or.inr ⟨s, d, _, rfl, rfl, hv, h.symm⟩)
        · rw [get_topology_vc env s d ho hsz hdt hv] at h
          exact Or.inr (Or.inl ⟨s, d, rfl, rfl, hv, (Option.some.inj h).symm⟩)
  · rw [get_topology_openFalse env (by simpa using ho)] at h
    simp at h

/-- Witness for the amended C8: a failing sizing ioctl (errno 9) lands in
the `IoctlError` exit. -/
theorem get_topology_linear_witness :
    envErr9.openOk = true ∧
    ((∃ e, (Except.error (GetTopologyError.IoctlError 9) :
          Except GetTopologyError MediaV2Topology) =
            Except.error (GetTopologyError.IoctlError e) ∧
        (envErr9.sizing = Except.error e ∨
          ∃ s, envErr9.sizing = Except.ok s ∧ envErr9.data = Except.error e)) ∨
      (∃ s d, envErr9.sizing = Except.ok s ∧ envErr9.data = Except.ok d ∧
        d.topology_version ≠ s.topology_version ∧
        (Except.error (GetTopologyError.IoctlError 9) :
          Except GetTopologyError MediaV2Topology) =
            Except.error (GetTopologyError.VersionChange
              s.topology_version d.topology_version)) ∨
      (∃ s d t, envErr9.sizing = Except.ok s ∧ envErr9.data = Except.ok d ∧
        d.topology_version = s.topology_version ∧
        (Except.error (GetTopologyError.IoctlError 9) :
          Except GetTopologyError MediaV2Topology) = Except.ok t)) :=
  get_topology_linear envErr9 (Except.error (GetTopologyError.IoctlError 9))
    (by decide)

/-- C9: the counts used when marking the buffers initialized, and the
stored snapshot version, are the values of the request struct after the
data-phase ioctl (not the saved sizing-phase values), and if any
data-phase count exceeds the corresponding sizing-phase count (the
allocated capacity) the `set_len` marking is out of bounds — undefined
behaviour, modelled as no result at all. -/
theorem get_topology_marks_data_counts (env : TopoEnv) (s : TopoSizing)
    (d : TopoData) (ho : env.openOk = true)
    (hs : env.sizing = Except.ok s) (hd : env.data = Except.ok d)
    (hv : d.topology_version = s.topology_version) :
    (∀ t, get_topology env = some (Except.ok t) →
        t.topology_version = d.topology_version ∧
        t.entities.length = d.num_entities ∧
        t.interfaces.length = d.num_interfaces ∧
        t.pads.length = d.num_pads ∧
        t.links.length = d.num_links) ∧
    (¬ (d.num_entities ≤ s.num_entities ∧
        d.num_interfaces ≤ s.num_interfaces ∧
        d.num_pads ≤ s.num_pads ∧ d.num_links ≤ s.num_links) →
      get_topology env = none) := by
  constructor
  · intro t ht
    obtain ⟨-, -, -, -, -, hents, hintfs, hpads, hlinks, hver⟩ :=
      get_topology_ok_inv env s d t ho hs hd ht
    have he : t.entities.length = d.num_entities := by
      have := decodeEntities_length _ _ hents
      simpa using this
    refine ⟨hver, he, ?_, ?_, ?_⟩
    · rw [hintfs]; simp
    · rw [hpads]; simp
    · rw [hlinks]; simp
  · intro hnot
    rw [get_topology_decode env s d ho hs hd hv]
    by_cases h1 : d.num_entities ≤ s.num_entities
    · by_cases h2 : d.num_interfaces ≤ s.num_interfaces
      · by_cases h3 : d.num_pads ≤ s.num_pads
        · by_cases h4 : d.num_links ≤ s.num_links
          · exact absurd ⟨h1, h2, h3, h4⟩ hnot
          · simp [set_len, h1, h2, h3, h4]
        · simp [set_len, h1, h2, h3]
      · simp [set_len, h1, h2]
    · simp [set_len, h1]

/-- Witness for C9: on the spec scenario the snapshot carries the
data-phase version and counts, and on `envUB` (data-phase entity count 1
against capacity 0) the marking is out of bounds. -/
theorem get_topology_marks_data_counts_witness :
    (snapScn.topology_version = dataScn.topology_version ∧
      snapScn.entities.length = dataScn.num_entities ∧
      snapScn.interfaces.length = dataScn.num_interfaces ∧
      snapScn.pads.length = dataScn.num_pads ∧
      snapScn.links.length = dataScn.num_links) ∧
    get_topology envUB = none := by
  constructor
  · exact (get_topology_marks_data_counts envScn sizingScn dataScn
      rfl rfl rfl rfl).1 snapScn (by decide)
  · exact (get_topology_marks_data_counts envUB sizing0 dataUB
      rfl rfl rfl rfl).2 (by decide)
